import Mathlib

/-!
Verification of the MediSecure backend authentication and device-trust
subsystem, shallowly embedded from the Python source:

* `utils/security.py`   — credential hashing (`get_password_hash`,
  `verify_password`) over passlib's argon2 context,
* `utils/encryption.py` — the `EncryptionManager` field-encryption layer
  over `cryptography.fernet.Fernet`,
* `routers/auth_v2.py`  — registration, email verification, login with
  device-fingerprint step-up, forgot-password,
* `routers/user_management.py` — authenticated change-password with the
  five-entry password-history reuse check.

External cryptographic primitives (argon2, Fernet) are modelled as abstract
structures carrying exactly the contracts their libraries document
(recompute-and-compare verification, collision freeness, decrypt inverting
encrypt); the repository's own code on top of them is translated line by
line.  Redis keyspaces (`registration:*`, `device_verify:*`, `reset:*`,
`refresh_token:*`) become association lists in an explicit application
state, with TTL expiry modelled as absence of the key.
-/

namespace MediSecure

/-! ## Credential hasher (`utils/security.py`)

`pwd_context = CryptContext(schemes=["argon2"])`: an idealized
memory-hard hash.  `hashFn` is the primitive's hash of its input string;
`verify` re-derives and compares, per passlib's documented behaviour.
Collision freeness of the primitive is the standing idealization. -/
structure CryptContext where
  hashFn : String → String
  hash_injective : ∀ x y, hashFn x = hashFn y → x = y

def CryptContext.hash (c : CryptContext) (secret : String) : String :=
  c.hashFn secret

def CryptContext.verify (c : CryptContext) (secret stored : String) : Bool :=
  c.hashFn secret == stored

/-- `get_password_hash(password, salt)`: append salt to password and hash. -/
def get_password_hash (c : CryptContext) (password salt : String) : String :=
  c.hash (password ++ salt)

/-- `verify_password(plain_password, hashed_password, salt)`. -/
def verify_password (c : CryptContext) (plain_password hashed_password salt : String) : Bool :=
  c.verify (plain_password ++ salt) hashed_password

/-- A concrete hash context used to evaluate the development on closed
inputs: the identity function is trivially collision free. -/
def idCrypt : CryptContext where
  hashFn := fun x => x
  hash_injective := fun _ _ h => h

theorem append_left_cancel_str {p s t : String} (h : p ++ s = p ++ t) : s = t := by
  have hd : p.data ++ s.data = p.data ++ t.data := by
    have := congrArg String.data h
    simpa [String.data_append] using this
  have hst : s.data = t.data := List.append_cancel_left hd
  cases s; cases t; exact congrArg String.mk hst

/-- Claim C5: two accounts with identical passwords and different salts never
produce the same stored hash: for every password and distinct salts the
hashes of the salted concatenations differ. -/
theorem get_password_hash_salt_injective (c : CryptContext) (p s₁ s₂ : String)
    (h : s₁ ≠ s₂) :
    get_password_hash c p s₁ ≠ get_password_hash c p s₂ := by
  intro heq
  apply h
  have := c.hash_injective _ _ heq
  exact append_left_cancel_str this

/-- Claim C5 witness: evaluated at password "pw" and salts "a" ≠ "b". -/
theorem get_password_hash_salt_injective_witness :
    ("a" : String) ≠ "b" ∧
      get_password_hash idCrypt "pw" "a" ≠ get_password_hash idCrypt "pw" "b" :=
  ⟨by decide, get_password_hash_salt_injective idCrypt "pw" "a" "b" (by decide)⟩

/-- Claim C9: hashing and verification depend only on the concatenated
password-plus-salt string: whenever p ++ s = q ++ t, the pair (q, t)
verifies against the hash stored for (p, s); in particular every (p, s)
verifies against its own hash. -/
theorem verify_password_concat_only (c : CryptContext) (p s q t : String)
    (h : p ++ s = q ++ t) :
    verify_password c q (get_password_hash c p s) t = true := by
  simp [verify_password, get_password_hash, CryptContext.verify, CryptContext.hash, h]

/-- Claim C9 witness: "ab" ++ "c" = "a" ++ "bc", and ("a", "bc") verifies
against the hash stored for ("ab", "c"). -/
theorem verify_password_concat_only_witness :
    ("ab" : String) ++ "c" = "a" ++ "bc" ∧
      verify_password idCrypt "a" (get_password_hash idCrypt "ab" "c") "bc" = true :=
  ⟨by decide, verify_password_concat_only idCrypt "ab" "c" "a" "bc" (by decide)⟩

/-! ## Field encryption (`utils/encryption.py`)

`cryptography.fernet.Fernet` is modelled as an abstract authenticated
symmetric cipher with its documented contract: `decrypt` inverts
`encrypt`, and a Fernet token is never the empty string (tokens always
carry a version byte, timestamp, IV and HMAC). -/
structure Fernet where
  fernetEncrypt : String → String
  fernetDecrypt : String → String
  decrypt_encrypt : ∀ x, fernetDecrypt (fernetEncrypt x) = x
  encrypt_ne_empty : ∀ x, fernetEncrypt x ≠ ""

/-- `EncryptionManager`: holds `self._cipher = Fernet(self._master_key)`. -/
structure EncryptionManager where
  cipher : Fernet

/-- `EncryptionManager.encrypt`: `if not data: return data` then
`self._cipher.encrypt(data.encode()).decode()`. -/
def EncryptionManager.encrypt (m : EncryptionManager) (data : String) : String :=
  if data = "" then data else m.cipher.fernetEncrypt data

/-- `EncryptionManager.decrypt`: `if not encrypted_data: return encrypted_data`
then `self._cipher.decrypt(encrypted_data.encode()).decode()`. -/
def EncryptionManager.decrypt (m : EncryptionManager) (encrypted_data : String) : String :=
  if encrypted_data = "" then encrypted_data else m.cipher.fernetDecrypt encrypted_data

/-- A concrete cipher used to evaluate the development on closed inputs:
prepend a tag character, strip it on decryption. -/
def tagFernet : Fernet where
  fernetEncrypt := fun x => String.mk ('t' :: x.data)
  fernetDecrypt := fun y => String.mk y.data.tail
  decrypt_encrypt := fun x => by cases x; rfl
  encrypt_ne_empty := fun x h => by
    have := congrArg String.data h
    simp [String.mk] at this

def tagManager : EncryptionManager where
  cipher := tagFernet

/-- Claim C4: for every non-empty string x, decrypting the encryption of x
returns x, and encrypting the empty string returns the empty string
unchanged. -/
theorem encrypt_decrypt_roundtrip (m : EncryptionManager) (x : String)
    (hx : x ≠ "") :
    m.decrypt (m.encrypt x) = x ∧ m.encrypt "" = "" := by
  constructor
  · rw [EncryptionManager.encrypt, if_neg hx, EncryptionManager.decrypt,
      if_neg (m.cipher.encrypt_ne_empty x)]
    exact m.cipher.decrypt_encrypt x
  · rfl

/-- Claim C4 witness: evaluated on the concrete tag cipher at x = "pii". -/
theorem encrypt_decrypt_roundtrip_witness :
    ("pii" : String) ≠ "" ∧
      (tagManager.decrypt (tagManager.encrypt "pii") = "pii" ∧
        tagManager.encrypt "" = "") :=
  ⟨by decide, encrypt_decrypt_roundtrip tagManager "pii" (by decide)⟩

/-! ## Data model (`models/user.py`, `models/audit.py`)

Timestamps are abstract `Nat` instants supplied by the caller; SQLAlchemy
enum roles are carried as the strings stored in Redis payloads. -/

/-- `models.user.User` (table `users`). -/
structure User where
  id : Nat
  email : String
  name : String
  hashed_password : String
  salt : String
  role : String
  is_verified : Bool
  is_active : Bool
deriving DecidableEq

/-- `models.user.UserDevice` (table `user_devices`). -/
structure UserDevice where
  user_id : Nat
  fingerprint_hash : String
  last_login : Nat
deriving DecidableEq

/-- `models.audit.PasswordHistory` (table `password_history`).  Rows are
kept in insertion order, so `created_at` ascending coincides with list
order (timestamps are strictly increasing `utcnow` values). -/
structure PasswordHistory where
  user_id : Nat
  hashed_password : String
  salt : String
deriving DecidableEq

/-- Payload stored at Redis key `registration:{email}` by `register`. -/
structure RegistrationData where
  email : String
  name : String
  hashed_password : String
  salt : String
  role : String
  code : String
deriving DecidableEq

/-- Payload stored at Redis key `device_verify:{email}` by `login`. -/
structure DeviceVerifyData where
  fingerprint : String
  code : String
  device_id : String
deriving DecidableEq

/-- Payload stored at Redis key `refresh_token:{user_id}:{token}`. -/
structure RefreshTokenData where
  user_id : Nat
  token : String
  email : String
deriving DecidableEq

/-- The two stores the auth endpoints touch: the relational tables and the
four Redis keyspaces (one association list per key namespace; a missing
key models both deletion and TTL expiry). -/
structure AppState where
  users : List User
  user_devices : List UserDevice
  registrations : List (String × RegistrationData)
  device_verifications : List (String × DeviceVerifyData)
  reset_codes : List (String × String)
  refresh_tokens : List RefreshTokenData
deriving DecidableEq

def redisGet {α : Type} (store : List (String × α)) (key : String) : Option α :=
  (store.find? (fun kv => kv.1 == key)).map (fun kv => kv.2)

def redisSetex {α : Type} (store : List (String × α)) (key : String) (v : α) :
    List (String × α) :=
  (key, v) :: store.filter (fun kv => kv.1 != key)

def redisDelete {α : Type} (store : List (String × α)) (key : String) :
    List (String × α) :=
  store.filter (fun kv => kv.1 != key)

/-- `db.query(User).filter(User.email == email).first()`. -/
def findUserByEmail (users : List User) (email : String) : Option User :=
  users.find? (fun u => u.email == email)

/-- `db.query(UserDevice).filter(UserDevice.user_id == user.id).all()`. -/
def devicesOf (ds : List UserDevice) (uid : Nat) : List UserDevice :=
  ds.filter (fun d => d.user_id == uid)

/-! ## Email verification (`auth_v2.verify_email`) -/

inductive VerifyEmailResult
  /-- 200 "Email verified successfully. You can now login." -/
  | emailVerified
  /-- 400 "Verification code expired or invalid" (no Redis entry). -/
  | verificationExpired
  /-- 400 "Invalid verification code" (code mismatch; entry kept). -/
  | invalidCode
  /-- 500 "Database error during user creation" (insert failed, rollback;
  the pending registration is left in Redis). -/
  | databaseError
deriving DecidableEq

/-- `verify_email`: look up `registration:{email}`, compare the stored code,
insert the materialized `User` (`is_verified=True, is_active=True`) —
failing if the unique-email constraint is violated — and delete the Redis
entry.  `new_id` is the id the database assigns to the inserted row. -/
def verify_email (st : AppState) (email code : String) (new_id : Nat) :
    VerifyEmailResult × AppState :=
  match redisGet st.registrations email with
  | none => (.verificationExpired, st)
  | some stored =>
    if stored.code != code then (.invalidCode, st)
    else if (findUserByEmail st.users stored.email).isSome then
      (.databaseError, st)
    else
      let new_user : User :=
        { id := new_id, email := stored.email, name := stored.name,
          hashed_password := stored.hashed_password, salt := stored.salt,
          role := stored.role, is_verified := true, is_active := true }
      (.emailVerified,
        { st with
            users := st.users ++ [new_user],
            registrations := redisDelete st.registrations email })

/-! ## Login (`auth_v2.login`) -/

inductive LoginResult
  /-- 401 "Invalid credentials" (unknown email or password mismatch). -/
  | invalidCredentials
  /-- 403 "Account disabled". -/
  | accountDisabled
  /-- 403 "Account not verified. Please verify your email first." -/
  | notVerified
  /-- 200 `LoginResponse(requires_verification=True, device_id=...)`: the
  step-up response; `set_auth_cookies` is not called and no tokens exist. -/
  | deviceVerificationRequired (device_id : String)
  /-- 200 "Login successful" with both HttpOnly cookies set. -/
  | loginOk (access_token refresh_token : String)
deriving DecidableEq

/-- Update `known_device.last_login = datetime.utcnow()` on the first
device of the account whose fingerprint matches. -/
def touchDevice (ds : List UserDevice) (uid : Nat) (fp : String) (now : Nat) :
    List UserDevice :=
  match ds with
  | [] => []
  | d :: rest =>
    if d.user_id == uid && d.fingerprint_hash == fp then
      { d with last_login := now } :: rest
    else d :: touchDevice rest uid fp now

/-- Steps 6–7 of `login` (shared with `verify_device`): mint the access
token, store the refresh token under `refresh_token:{id}:{token}`, set the
cookies. -/
def issue_session (st : AppState) (u : User) (access_tok refresh_tok : String) :
    LoginResult × AppState :=
  (.loginOk access_tok refresh_tok,
    { st with refresh_tokens := ⟨u.id, refresh_tok, u.email⟩ :: st.refresh_tokens })

/-- `login`: credential checks in source order (existence, active, verified,
password), then device fingerprinting.  The nondeterministic draws are
passed in: `server_fingerprint` is `generate_device_fingerprint(request)`,
`code`/`device_id` the freshly generated challenge values, and
`access_tok`/`refresh_tok` the minted tokens; `now` is the current time. -/
def login (c : CryptContext) (st : AppState) (email password : String)
    (device_fingerprint : Option String) (server_fingerprint : String)
    (code device_id access_tok refresh_tok : String) (now : Nat) :
    LoginResult × AppState :=
  match findUserByEmail st.users email with
  | none => (.invalidCredentials, st)
  | some user =>
    if !user.is_active then (.accountDisabled, st)
    else if !user.is_verified then (.notVerified, st)
    else if !verify_password c password user.hashed_password user.salt then
      (.invalidCredentials, st)
    else
      let current_fingerprint := device_fingerprint.getD server_fingerprint
      let user_devices := devicesOf st.user_devices user.id
      if user_devices.isEmpty then
        issue_session
          { st with user_devices :=
              st.user_devices ++ [⟨user.id, current_fingerprint, now⟩] }
          user access_tok refresh_tok
      else
        match user_devices.find? (fun d => d.fingerprint_hash == current_fingerprint) with
        | none =>
          let challenge : DeviceVerifyData := ⟨current_fingerprint, code, device_id⟩
          (.deviceVerificationRequired device_id,
            { st with device_verifications :=
                redisSetex st.device_verifications email challenge })
        | some _ =>
          issue_session
            { st with user_devices :=
                touchDevice st.user_devices user.id current_fingerprint now }
            user access_tok refresh_tok

/-! ## Forgot password (`auth_v2.forgot_password`) -/

/-- `forgot_password`: returns the HTTP status and body message; if the
account exists, a reset code is written to `reset:{email}`.  `code` is the
freshly drawn `generate_verification_code()` value. -/
def forgot_password (st : AppState) (email code : String) :
    (Nat × String) × AppState :=
  match findUserByEmail st.users email with
  | some _ =>
    ((200, "If the email exists, a reset code has been sent."),
      { st with reset_codes := redisSetex st.reset_codes email code })
  | none =>
    ((200, "If the email exists, a reset code has been sent."), st)

/-! ## Change password (`user_management.change_password`) -/

inductive ChangePasswordResult
  /-- 400 "Current password is incorrect". -/
  | currentPasswordIncorrect
  /-- 400 "Password must be at least 8 characters long". -/
  | passwordTooShort
  /-- 400 "Cannot reuse recent passwords". -/
  | passwordReused
  /-- 200 "Password changed successfully". -/
  | passwordChanged
deriving DecidableEq

/-- `order_by(PasswordHistory.created_at.desc()).limit(5)` for one user:
with rows kept in insertion order, the five most recent entries. -/
def recentPasswordHistory (hist : List PasswordHistory) (uid : Nat) :
    List PasswordHistory :=
  ((hist.filter (fun h => h.user_id == uid)).reverse).take 5

/-- `change_password`: verify the current password, enforce the length
minimum, reject reuse of the five most recent history entries, then append
the old hash+salt pair and store a new hash under the fresh salt
`new_salt`. -/
def change_password (c : CryptContext) (current_user : User)
    (hist : List PasswordHistory) (current_password new_password new_salt : String) :
    ChangePasswordResult × User × List PasswordHistory :=
  if !verify_password c current_password current_user.hashed_password current_user.salt then
    (.currentPasswordIncorrect, current_user, hist)
  else if new_password.length < 8 then
    (.passwordTooShort, current_user, hist)
  else if (recentPasswordHistory hist current_user.id).any
      (fun h => verify_password c new_password h.hashed_password h.salt) then
    (.passwordReused, current_user, hist)
  else
    (.passwordChanged,
      { current_user with
          hashed_password := get_password_hash c new_password new_salt,
          salt := new_salt },
      hist ++ [⟨current_user.id, current_user.hashed_password, current_user.salt⟩])

/-! ## Store lemmas -/

theorem redisGet_redisDelete {α : Type} (store : List (String × α)) (key : String) :
    redisGet (redisDelete store key) key = none := by
  unfold redisGet redisDelete
  have hfind : (store.filter (fun kv => kv.1 != key)).find? (fun kv => kv.1 == key) = none := by
    rw [List.find?_eq_none]
    intro kv hkv
    have := List.of_mem_filter hkv
    simpa using this
  rw [hfind]
  rfl

theorem redisGet_redisSetex {α : Type} (store : List (String × α)) (key : String) (v : α) :
    redisGet (redisSetex store key v) key = some v := by
  simp [redisGet, redisSetex]

theorem filterByEmail_eq_nil {users : List User} {email : String}
    (h : findUserByEmail users email = none) :
    users.filter (fun u => u.email == email) = [] := by
  rw [List.filter_eq_nil_iff]
  intro u hu
  exact List.find?_eq_none.mp h u hu

theorem verify_email_expired (st : AppState) (email code : String) (new_id : Nat)
    (h : redisGet st.registrations email = none) :
    verify_email st email code new_id = (.verificationExpired, st) := by
  unfold verify_email
  rw [h]

/-! ## Claim C1 -/

/-- Claim C1: for every email with a live PendingRegistration (and no account
yet holding that email), verify-email with the matching code succeeds,
leaves exactly one account with that email — verified and active — and
deletes the pending registration, so a second verify-email attempt with the
same code afterwards fails with the VerificationExpired error. -/
theorem verify_email_materializes_once (st : AppState) (email code : String)
    (reg : RegistrationData) (new_id id₂ : Nat)
    (hreg : redisGet st.registrations email = some reg)
    (hkey : reg.email = email)
    (hcode : reg.code = code)
    (hfresh : findUserByEmail st.users email = none) :
    (verify_email st email code new_id).1 = .emailVerified
    ∧ (∃ u : User,
        (verify_email st email code new_id).2.users.filter (fun v => v.email == email) = [u]
        ∧ u.is_verified = true ∧ u.is_active = true)
    ∧ redisGet (verify_email st email code new_id).2.registrations email = none
    ∧ (verify_email (verify_email st email code new_id).2 email code id₂).1
        = .verificationExpired := by
  have hnotsome : (findUserByEmail st.users reg.email).isSome = false := by
    rw [hkey, hfresh]; rfl
  have hstep : verify_email st email code new_id
      = (.emailVerified,
          { st with
              users := st.users ++ [⟨new_id, reg.email, reg.name,
                reg.hashed_password, reg.salt, reg.role, true, true⟩],
              registrations := redisDelete st.registrations email }) := by
    unfold verify_email
    rw [hreg]
    simp [hcode, hnotsome]
  refine ⟨by rw [hstep], ?_, ?_, ?_⟩
  · refine ⟨⟨new_id, reg.email, reg.name, reg.hashed_password, reg.salt,
      reg.role, true, true⟩, ?_, rfl, rfl⟩
    rw [hstep]
    simp only [List.filter_append, filterByEmail_eq_nil hfresh, List.nil_append]
    simp [hkey]
  · rw [hstep]
    exact redisGet_redisDelete st.registrations email
  · have hgone : redisGet (verify_email st email code new_id).2.registrations email = none := by
      rw [hstep]
      exact redisGet_redisDelete st.registrations email
    rw [verify_email_expired _ _ _ _ hgone]

/-- Concrete state for evaluating claim C1: one live pending registration for
"a@x.com" with code "123456" and an empty user table. -/
def cexRegData : RegistrationData :=
  { email := "a@x.com", name := "A", hashed_password := "pwS", salt := "S",
    role := "patient", code := "123456" }

def cexRegState : AppState :=
  { users := [], user_devices := [], registrations := [("a@x.com", cexRegData)],
    device_verifications := [], reset_codes := [], refresh_tokens := [] }

/-- Claim C1 witness: the verify–reverify scenario evaluated on the concrete
pending registration. -/
theorem verify_email_materializes_once_witness :
    (verify_email cexRegState "a@x.com" "123456" 1).1 = VerifyEmailResult.emailVerified
    ∧ (verify_email (verify_email cexRegState "a@x.com" "123456" 1).2 "a@x.com" "123456" 2).1
        = VerifyEmailResult.verificationExpired :=
  ⟨(verify_email_materializes_once cexRegState "a@x.com" "123456" cexRegData 1 2
      rfl rfl rfl rfl).1,
    (verify_email_materializes_once cexRegState "a@x.com" "123456" cexRegData 1 2
      rfl rfl rfl rfl).2.2.2⟩

/-! ## Claim C6 -/

/-- Claim C6: login with the correct password on a verified, active account
with zero trusted devices always succeeds without a device challenge,
creates exactly one trusted device carrying the presented fingerprint, and
issues session tokens. -/
theorem login_bootstrap_first_device (c : CryptContext) (st : AppState)
    (email password server_fp code device_id access_tok refresh_tok : String)
    (dfp : Option String) (now : Nat) (u : User)
    (hfind : findUserByEmail st.users email = some u)
    (hactive : u.is_active = true)
    (hver : u.is_verified = true)
    (hpw : verify_password c password u.hashed_password u.salt = true)
    (hdev : devicesOf st.user_devices u.id = []) :
    (login c st email password dfp server_fp code device_id access_tok refresh_tok now).1
        = .loginOk access_tok refresh_tok
    ∧ devicesOf
        (login c st email password dfp server_fp code device_id access_tok refresh_tok now).2.user_devices
        u.id = [⟨u.id, dfp.getD server_fp, now⟩]
    ∧ (login c st email password dfp server_fp code device_id access_tok refresh_tok now).2.refresh_tokens
        = ⟨u.id, refresh_tok, u.email⟩ :: st.refresh_tokens := by
  have hstep : login c st email password dfp server_fp code device_id access_tok refresh_tok now
      = (.loginOk access_tok refresh_tok,
          { st with
              user_devices := st.user_devices ++ [⟨u.id, dfp.getD server_fp, now⟩],
              refresh_tokens := ⟨u.id, refresh_tok, u.email⟩ :: st.refresh_tokens }) := by
    unfold login
    rw [hfind]
    simp [hactive, hver, hpw, hdev, issue_session]
  refine ⟨by rw [hstep], ?_, by rw [hstep]⟩
  rw [hstep]
  unfold devicesOf at hdev ⊢
  rw [List.filter_append, hdev, List.nil_append]
  simp

/-- Claim C6 witness: a verified active account with no devices, evaluated at
a concrete login. -/
def cexUserFresh : User :=
  { id := 1, email := "a@x.com", name := "A", hashed_password := "pwS",
    salt := "S", role := "patient", is_verified := true, is_active := true }

def cexStateFresh : AppState :=
  { users := [cexUserFresh], user_devices := [], registrations := [],
    device_verifications := [], reset_codes := [], refresh_tokens := [] }

theorem login_bootstrap_first_device_witness :
    (login idCrypt cexStateFresh "a@x.com" "pw" none "fp0" "111111" "dev1" "atk" "rtk" 7).1
        = LoginResult.loginOk "atk" "rtk"
    ∧ devicesOf
        (login idCrypt cexStateFresh "a@x.com" "pw" none "fp0" "111111" "dev1" "atk" "rtk" 7).2.user_devices
        1 = [⟨1, "fp0", 7⟩] :=
  ⟨(login_bootstrap_first_device idCrypt cexStateFresh "a@x.com" "pw" "fp0" "111111"
      "dev1" "atk" "rtk" none 7 cexUserFresh rfl rfl rfl (by decide) rfl).1,
    (login_bootstrap_first_device idCrypt cexStateFresh "a@x.com" "pw" "fp0" "111111"
      "dev1" "atk" "rtk" none 7 cexUserFresh rfl rfl rfl (by decide) rfl).2.1⟩

/-! ## Claim C3 -/

/-- Claim C3: login with the correct password on an account that has at least
one trusted device, none of whose fingerprints equal the presented
fingerprint, returns the verification-required response carrying the
challenge id, stores the device challenge, and issues no session tokens:
the refresh-token store and the device table are unchanged. -/
theorem login_unknown_device_requires_verification (c : CryptContext) (st : AppState)
    (email password server_fp code device_id access_tok refresh_tok : String)
    (dfp : Option String) (now : Nat) (u : User)
    (hfind : findUserByEmail st.users email = some u)
    (hactive : u.is_active = true)
    (hver : u.is_verified = true)
    (hpw : verify_password c password u.hashed_password u.salt = true)
    (hdev : devicesOf st.user_devices u.id ≠ [])
    (hfp : ∀ d ∈ devicesOf st.user_devices u.id,
        d.fingerprint_hash ≠ dfp.getD server_fp) :
    (login c st email password dfp server_fp code device_id access_tok refresh_tok now).1
        = .deviceVerificationRequired device_id
    ∧ (login c st email password dfp server_fp code device_id access_tok refresh_tok now).2.user_devices
        = st.user_devices
    ∧ (login c st email password dfp server_fp code device_id access_tok refresh_tok now).2.refresh_tokens
        = st.refresh_tokens
    ∧ redisGet
        (login c st email password dfp server_fp code device_id access_tok refresh_tok now).2.device_verifications
        email = some ⟨dfp.getD server_fp, code, device_id⟩ := by
  have hempty : (devicesOf st.user_devices u.id).isEmpty = false := by
    cases h : devicesOf st.user_devices u.id
    · exact absurd h hdev
    · rfl
  have hfound : (devicesOf st.user_devices u.id).find?
      (fun d => d.fingerprint_hash == dfp.getD server_fp) = none := by
    rw [List.find?_eq_none]
    intro d hd
    simpa using hfp d hd
  have hstep : login c st email password dfp server_fp code device_id access_tok refresh_tok now
      = (.deviceVerificationRequired device_id,
          { st with device_verifications := redisSetex st.device_verifications email (DeviceVerifyData.mk (dfp.getD server_fp) code device_id) }) := by
    unfold login
    rw [hfind]
    simp [hactive, hver, hpw, hempty, hfound]
  refine ⟨by rw [hstep], by rw [hstep], by rw [hstep], ?_⟩
  rw [hstep]
  exact redisGet_redisSetex st.device_verifications email _

/-- Claim C3 witness: an account whose single trusted device has fingerprint
"fp0", logging in from fingerprint "fp1". -/
def cexStateOneDevice : AppState :=
  { users := [cexUserFresh], user_devices := [⟨1, "fp0", 0⟩], registrations := [],
    device_verifications := [], reset_codes := [], refresh_tokens := [] }

theorem login_unknown_device_requires_verification_witness :
    (login idCrypt cexStateOneDevice "a@x.com" "pw" (some "fp1") "srv" "222222" "dev2" "atk" "rtk" 9).1
        = LoginResult.deviceVerificationRequired "dev2"
    ∧ (login idCrypt cexStateOneDevice "a@x.com" "pw" (some "fp1") "srv" "222222" "dev2" "atk" "rtk" 9).2.refresh_tokens
        = cexStateOneDevice.refresh_tokens :=
  ⟨(login_unknown_device_requires_verification idCrypt cexStateOneDevice "a@x.com" "pw"
      "srv" "222222" "dev2" "atk" "rtk" (some "fp1") 9 cexUserFresh rfl rfl rfl
      (by decide) (by decide) (by decide)).1,
    (login_unknown_device_requires_verification idCrypt cexStateOneDevice "a@x.com" "pw"
      "srv" "222222" "dev2" "atk" "rtk" (some "fp1") 9 cexUserFresh rfl rfl rfl
      (by decide) (by decide) (by decide)).2.2.1⟩

/-! ## Claim C2

The claim asserts that a password mismatch yields the InvalidCredentials
error regardless of the account's disabled or unverified status.  In
`login` the `is_active` and `is_verified` checks run before the password
check, so a wrong password on a disabled account yields the 403
AccountDisabled error — a distinguishable failure. -/

/-- A disabled but verified account; its password is "pw" under `idCrypt`
with salt "S". -/
def cexUserDisabled : User :=
  { id := 1, email := "d@x.com", name := "D", hashed_password := "pwS",
    salt := "S", role := "patient", is_verified := true, is_active := false }

def cexStateDisabled : AppState :=
  { users := [cexUserDisabled], user_devices := [], registrations := [],
    device_verifications := [], reset_codes := [], refresh_tokens := [] }

/-- Claim C2 counterexample: on a disabled account, a login whose submitted
password does not match the stored credentials fails with AccountDisabled,
not with the InvalidCredentials error the claim requires for every
password mismatch. -/
theorem login_disabled_mismatch_not_invalid_credentials :
    verify_password idCrypt "wrong" cexUserDisabled.hashed_password cexUserDisabled.salt = false
    ∧ (login idCrypt cexStateDisabled "d@x.com" "wrong" none "fp" "c" "d" "atk" "rtk" 0).1
        = LoginResult.accountDisabled
    ∧ (login idCrypt cexStateDisabled "d@x.com" "wrong" none "fp" "c" "d" "atk" "rtk" 0).1
        ≠ LoginResult.invalidCredentials := by
  decide

/-- Claim C2 as amended: for an unknown email, and for a password mismatch
on an account that is active and verified, login fails with the same
InvalidCredentials error in both cases; the disabled and unverified
checks run before the password check and report their own errors. -/
theorem login_credential_failures_collapse (c : CryptContext) (st₁ st₂ : AppState)
    (e₁ e₂ p₁ p₂ sfp₁ sfp₂ code₁ code₂ did₁ did₂ atk₁ atk₂ rtk₁ rtk₂ : String)
    (dfp₁ dfp₂ : Option String) (now₁ now₂ : Nat) (u : User)
    (h₁ : findUserByEmail st₁.users e₁ = none)
    (h₂ : findUserByEmail st₂.users e₂ = some u)
    (hactive : u.is_active = true)
    (hver : u.is_verified = true)
    (hmm : verify_password c p₂ u.hashed_password u.salt = false) :
    (login c st₁ e₁ p₁ dfp₁ sfp₁ code₁ did₁ atk₁ rtk₁ now₁).1 = .invalidCredentials
    ∧ (login c st₂ e₂ p₂ dfp₂ sfp₂ code₂ did₂ atk₂ rtk₂ now₂).1 = .invalidCredentials := by
  constructor
  · unfold login
    rw [h₁]
  · unfold login
    rw [h₂]
    simp [hactive, hver, hmm]

/-- Claim C2 witness: empty user table versus an active verified account
"a@x.com" with a mismatching password. -/
theorem login_credential_failures_collapse_witness :
    (login idCrypt { users := [], user_devices := [], registrations := [], device_verifications := [], reset_codes := [], refresh_tokens := [] } "n@x.com" "p" none "f" "c" "d" "a1" "r1" 0).1
        = LoginResult.invalidCredentials
    ∧ (login idCrypt cexStateFresh "a@x.com" "wrong" none "f" "c" "d" "a2" "r2" 0).1
        = LoginResult.invalidCredentials :=
  login_credential_failures_collapse idCrypt
    { users := [], user_devices := [], registrations := [], device_verifications := [], reset_codes := [], refresh_tokens := [] }
    cexStateFresh "n@x.com" "a@x.com" "p" "wrong" "f" "f" "c" "c" "d" "d" "a1" "a2" "r1" "r2"
    none none 0 0 cexUserFresh rfl rfl rfl rfl (by decide)

/-! ## Claim C8 -/

/-- Claim C8: the forgot-password responses for an email with an existing
account and for an email with no account are identical: the same 200
status and the same constant message in both cases. -/
theorem forgot_password_response_constant (st₁ st₂ : AppState) (e₁ e₂ c₁ c₂ : String)
    (h₁ : (findUserByEmail st₁.users e₁).isSome = true)
    (h₂ : findUserByEmail st₂.users e₂ = none) :
    (forgot_password st₁ e₁ c₁).1 = (forgot_password st₂ e₂ c₂).1
    ∧ (forgot_password st₁ e₁ c₁).1
        = (200, "If the email exists, a reset code has been sent.") := by
  unfold forgot_password
  rw [h₂]
  cases hf : findUserByEmail st₁.users e₁ with
  | none => rw [hf] at h₁; simp at h₁
  | some u => exact ⟨rfl, rfl⟩

/-- Claim C8 witness: account "a@x.com" exists in one state, "n@x.com" has
no account in the empty state. -/
theorem forgot_password_response_constant_witness :
    (forgot_password cexStateFresh "a@x.com" "333333").1
        = (forgot_password { users := [], user_devices := [], registrations := [], device_verifications := [], reset_codes := [], refresh_tokens := [] } "n@x.com" "444444").1 :=
  (forgot_password_response_constant cexStateFresh
    { users := [], user_devices := [], registrations := [], device_verifications := [], reset_codes := [], refresh_tokens := [] }
    "a@x.com" "n@x.com" "333333" "444444" (by decide) rfl).1

/-! ## Claim C7 -/

/-- Claim C7: on a change-password request with a correct current password
(and a new password meeting the validated length minimum), the new
password is checked with the hasher's verify against each of the five most
recent password-history rows: if any matches the request is rejected with
the PasswordReused error and nothing changes; otherwise the old hash+salt
pair is appended to history and the account stores a new hash under the
fresh salt. -/
theorem change_password_history_check (c : CryptContext) (u : User)
    (hist : List PasswordHistory) (curPw newPw newSalt : String)
    (hcur : verify_password c curPw u.hashed_password u.salt = true)
    (hlen : 8 ≤ newPw.length) :
    ((recentPasswordHistory hist u.id).any
        (fun h => verify_password c newPw h.hashed_password h.salt) = true →
      change_password c u hist curPw newPw newSalt = (.passwordReused, u, hist))
    ∧ ((recentPasswordHistory hist u.id).any
        (fun h => verify_password c newPw h.hashed_password h.salt) = false →
      change_password c u hist curPw newPw newSalt
        = (.passwordChanged,
            { u with hashed_password := get_password_hash c newPw newSalt, salt := newSalt },
            hist ++ [⟨u.id, u.hashed_password, u.salt⟩])) := by
  have hnl : ¬ newPw.length < 8 := Nat.not_lt.mpr hlen
  constructor
  · intro hany
    unfold change_password
    simp [hcur, hnl, hany]
  · intro hnone
    unfold change_password
    simp [hcur, hnl, hnone]

/-- Concrete account for the change-password claims: password "password1"
under `idCrypt` with salt "S". -/
def cexUserCp : User :=
  { id := 1, email := "a@x.com", name := "A", hashed_password := "password1S",
    salt := "S", role := "patient", is_verified := true, is_active := true }

/-- Claim C7 witness: with history ["oldpass99"], the reused candidate is
rejected and a fresh candidate goes through, appending the old pair. -/
theorem change_password_history_check_witness :
    (change_password idCrypt cexUserCp [⟨1, "oldpass99H", "H"⟩] "password1" "oldpass99" "N").1
        = ChangePasswordResult.passwordReused
    ∧ change_password idCrypt cexUserCp [⟨1, "oldpass99H", "H"⟩] "password1" "brandnew9" "N"
        = (ChangePasswordResult.passwordChanged,
            { cexUserCp with hashed_password := get_password_hash idCrypt "brandnew9" "N", salt := "N" },
            [⟨1, "oldpass99H", "H"⟩, ⟨1, "password1S", "S"⟩]) :=
  ⟨congrArg Prod.fst
      ((change_password_history_check idCrypt cexUserCp [⟨1, "oldpass99H", "H"⟩]
        "password1" "oldpass99" "N" (by decide) (by decide)).1 (by decide)),
    (change_password_history_check idCrypt cexUserCp [⟨1, "oldpass99H", "H"⟩]
        "password1" "brandnew9" "N" (by decide) (by decide)).2 (by decide)⟩

/-! ## Claim C10

The claim asserts that a change-password request whose new password equals
the current password always succeeds.  It fails when the current password
itself verifies against one of the five most recent history rows — a
reachable state: a successful change with new password equal to current
appends that very password to history, so repeating the same request is
rejected with the PasswordReused error (the reset-password path, which
skips history, reaches such states as well). -/

/-- Claim C10 counterexample: the current password "password1" also sits in
the password history, so the identity change is rejected, not accepted. -/
theorem change_password_same_password_rejected :
    verify_password idCrypt "password1" cexUserCp.hashed_password cexUserCp.salt = true
    ∧ 8 ≤ ("password1" : String).length
    ∧ (change_password idCrypt cexUserCp [⟨1, "password1H", "H"⟩] "password1" "password1" "N").1
        = ChangePasswordResult.passwordReused
    ∧ (change_password idCrypt cexUserCp [⟨1, "password1H", "H"⟩] "password1" "password1" "N").1
        ≠ ChangePasswordResult.passwordChanged := by
  decide

/-- Claim C10 as amended: a change-password request whose new password equals
the account's current password (meeting the length minimum) succeeds
whenever the current password verifies against none of the five most
recent history rows — the history check covers only previously replaced
passwords, and the current hash is appended to history only after the
check passes. -/
theorem change_password_same_password_ok (c : CryptContext) (u : User)
    (hist : List PasswordHistory) (curPw newSalt : String)
    (hcur : verify_password c curPw u.hashed_password u.salt = true)
    (hlen : 8 ≤ curPw.length)
    (hnotin : ∀ h ∈ recentPasswordHistory hist u.id,
        verify_password c curPw h.hashed_password h.salt = false) :
    change_password c u hist curPw curPw newSalt
      = (.passwordChanged,
          { u with hashed_password := get_password_hash c curPw newSalt, salt := newSalt },
          hist ++ [⟨u.id, u.hashed_password, u.salt⟩]) := by
  have hnone : (recentPasswordHistory hist u.id).any
      (fun h => verify_password c curPw h.hashed_password h.salt) = false := by
    rw [List.any_eq_false]
    intro h hh
    simp [hnotin h hh]
  unfold change_password
  simp [hcur, Nat.not_lt.mpr hlen, hnone]

/-- Claim C10 witness: history holds only the genuinely old password
"oldpass99", so re-setting the current password succeeds. -/
theorem change_password_same_password_ok_witness :
    change_password idCrypt cexUserCp [⟨1, "oldpass99H", "H"⟩] "password1" "password1" "N"
      = (ChangePasswordResult.passwordChanged,
          { cexUserCp with hashed_password := get_password_hash idCrypt "password1" "N", salt := "N" },
          [⟨1, "oldpass99H", "H"⟩, ⟨1, "password1S", "S"⟩]) :=
  change_password_same_password_ok idCrypt cexUserCp [⟨1, "oldpass99H", "H"⟩]
    "password1" "N" (by decide) (by decide) (by decide)

end MediSecure
